import Mathlib

/-!
# Verification of the fetch orchestration core

A shallow embedding, in Lean 4, of the scheduling/throttling/persistence core of
the intelligent-web-scraper skill:

* `Progress` — `ProgressManager` / `ProgressState`
  (`scripts/progress_manager.py`): completion and failure tracking with
  resume support.
* `Patterns` — `ExperienceManager` (`scripts/crawl4ai_wrapper.py`): the
  per-origin, per-URL-shape pattern store with wildcard matching.
* `Adaptive` — `AdaptiveRateLimiter` (`scripts/crawl4ai_wrapper.py`): the
  block-level escalation / de-escalation state machine.
* `Bucket` — `TokenBucketRateLimiter` (`scripts/concurrent_scraper.py`):
  the token-bucket rate limiter.
* `Scrape` — the semaphore acquire/release discipline of
  `ConcurrentScraper._scrape_single` (`scripts/concurrent_scraper.py`),
  modelled as the event trace of one fetch attempt.

Python `dict`s carrying opaque payloads are modelled as association lists of
strings; wall-clock timestamps are passed in explicitly as strings (their
values are never inspected by the code under verification).
-/

namespace Progress

/-- A Python `dict` payload, modelled as a key/value association list.
Python truthiness of a dict (`if data:`) is nonemptiness of the list. -/
abbrev Dict := List (String × String)

/-- One element of `ProgressState.scraped_data`: the caller's payload dict,
into which `mark_completed` wrote the completion timestamp
(`data["_scraped_at"]`) and the source URL (`data["_url"]`).  The two
injected keys are modelled as the fields `scraped_at` and `url`. -/
structure Entry where
  payload : Dict
  scraped_at : String
  url : String
deriving DecidableEq, Repr

/-- The fields of `ProgressState` (plus `ProgressManager._completed_set`,
the in-memory membership mirror of `completed_url_list`) that the
completion/failure/remaining logic reads or writes.  Persistence metadata
(timestamps, `task_id`, pagination bookkeeping, notes, config) is not
touched by the operations under verification and is omitted. -/
structure State where
  urls_to_scrape : List String
  completed_url_list : List String
  failed_url_list : List String
  /-- `ProgressManager._completed_set`, built from `completed_url_list`. -/
  completed_set : List String
  completed_urls : Nat
  failed_urls : Nat
  scraped_data : List Entry
  last_url : Option String
  last_error : Option String
  retry_count : Nat
deriving DecidableEq, Repr

/-- A fresh `ProgressState` as produced by `ProgressManager.__init__` when no
progress file exists (list fields empty, counters zero). -/
def initState : State :=
  { urls_to_scrape := []
    completed_url_list := []
    failed_url_list := []
    completed_set := []
    completed_urls := 0
    failed_urls := 0
    scraped_data := []
    last_url := none
    last_error := none
    retry_count := 0 }

/-- `ProgressManager.mark_completed(url, data)`.  The membership guard covers
only the set/list/counter updates; `last_url`, `retry_count` and the
`scraped_data` append (guarded by Python truthiness `if data:`) happen on
every call.  `now` is `datetime.now().isoformat()`. -/
def mark_completed (s : State) (url : String) (data : Option Dict) (now : String) : State :=
  let s1 :=
    if url ∈ s.completed_set then s
    else { s with
            completed_set := url :: s.completed_set
            completed_url_list := s.completed_url_list ++ [url]
            completed_urls := s.completed_urls + 1 }
  let s2 := { s1 with last_url := some url, retry_count := 0 }
  match data with
  | some d =>
      if d = [] then s2
      else { s2 with scraped_data := s2.scraped_data ++ [⟨d, now, url⟩] }
  | none => s2

/-- `ProgressManager.mark_failed(url, error)`. -/
def mark_failed (s : State) (url : String) (error : String) : State :=
  let s1 :=
    if url ∈ s.failed_url_list then s
    else { s with
            failed_url_list := s.failed_url_list ++ [url]
            failed_urls := s.failed_urls + 1 }
  { s1 with last_error := some error, retry_count := s1.retry_count + 1 }

/-- `ProgressManager.get_remaining_urls()`: the worklist filtered against the
completed set and the failed list, in worklist order. -/
def get_remaining_urls (s : State) : List String :=
  s.urls_to_scrape.filter (fun url => decide (url ∉ s.completed_set ∧ url ∉ s.failed_url_list))

/-- `_completed_set` is in sync with `completed_url_list` (it is built from it
in `__init__` and both are updated together in `mark_completed`). -/
def Inv (s : State) : Prop :=
  ∀ x, x ∈ s.completed_set ↔ x ∈ s.completed_url_list

/-- The entries of `scraped_data` carrying a given source URL. -/
def entriesFor (l : List Entry) (u : String) : List Entry :=
  l.filter (fun e => e.url == u)

/-- One interleaved call to the two outcome-recording operations. -/
inductive Event where
  | complete (url : String) (data : Option Dict) (now : String)
  | fail (url : String) (error : String)
deriving DecidableEq, Repr

/-- Apply one recorded call to the state. -/
def step (s : State) : Event → State
  | .complete url data now => mark_completed s url data now
  | .fail url error => mark_failed s url error

/-- Apply a whole interleaving of calls, first event first. -/
def run (s : State) (evs : List Event) : State := evs.foldl step s

/-- The URLs passed to `mark_completed` in an interleaving. -/
def completeUrls (evs : List Event) : List String :=
  evs.filterMap (fun e => match e with
    | .complete u _ _ => some u
    | .fail _ _ => none)

/-- The URLs passed to `mark_failed` in an interleaving. -/
def failUrls (evs : List Event) : List String :=
  evs.filterMap (fun e => match e with
    | .complete _ _ _ => none
    | .fail u _ => some u)

/-- A non-empty (hence Python-truthy) scraped-data dict used as a test payload. -/
def c1Data : Dict := [("k", "v")]

/-- The state after calling `mark_completed` twice for the same URL with the
same non-empty data payload, starting from a fresh state. -/
def c1Twice : State :=
  mark_completed (mark_completed initState "https://e.com/a" (some c1Data) "t1")
    "https://e.com/a" (some c1Data) "t2"

/-- `mark_completed` on a URL followed by `mark_failed` on the same URL. -/
def c3Run : State :=
  run initState [Event.complete "https://e.com/a" none "t", Event.fail "https://e.com/a" "boom"]

/-- An interleaving whose completed and failed URL arguments are disjoint. -/
def c3Evs : List Event := [Event.complete "a" none "t", Event.fail "b" "err"]

/-- The resume scenario: worklist `[A,B,C,D]`, `completed_url_list = [A,B]`,
no failures. -/
def resumeExample : State :=
  { initState with
      urls_to_scrape := ["A", "B", "C", "D"]
      completed_url_list := ["A", "B"]
      completed_set := ["A", "B"]
      completed_urls := 2 }

end Progress

namespace Patterns

/-- An opaque JSON-object payload (selectors / pagination / anti-block
config blobs), modelled as a key/value association list. -/
abbrev Blob := List (String × String)

/-- The two inputs of `urlparse` that `ExperienceManager` reads: the network
location (origin) and the path.  URL-string parsing itself is Python stdlib
(`urllib.parse.urlparse`) and is taken as given. -/
structure Url where
  netloc : String
  path : String
deriving DecidableEq, Repr

/-- Does the character list start with a decimal digit? -/
def headIsDigit : List Char → Bool
  | [] => false
  | c :: _ => c.isDigit

/-- One left-to-right pass of `re.sub(sep + r'\d+', sep + '*', path)`:
when `sep` is followed by at least one digit, the digit run is replaced by a
single `*`; the scan resumes after the consumed digits (`skipping = true`
drops the remaining digits of the current run).  Ordinary characters are
copied through. -/
def subNumGo (sep : Char) : Bool → List Char → List Char
  | _, [] => []
  | skipping, c :: rest =>
    if skipping && c.isDigit then
      subNumGo sep true rest
    else if c == sep && headIsDigit rest then
      c :: '*' :: subNumGo sep true rest
    else
      c :: subNumGo sep false rest

/-- `re.sub(sep + r'\d+', sep + '*', l)` (non-overlapping, leftmost, greedy). -/
def subNum (sep : Char) (l : List Char) : List Char := subNumGo sep false l

/-- `ExperienceManager._url_to_pattern(url)`: the path with `/<digits>`
runs replaced by `/*` and then `=<digits>` runs replaced by `=*`. -/
def urlToPattern (u : Url) : String :=
  String.mk (subNum '=' (subNum '/' u.path.data))

/-- `fnmatch.fnmatch(name, pattern)` for patterns made of literal characters,
`?` (any one character) and `*` (any run of characters, `/` included —
fnmatch translates `*` to the regex `.*`).  Bracket character classes do not
occur in stored URL shapes and are not modelled.  The `Nat` argument is pure
fuel for structural recursion; each step shrinks `pattern.length +
name.length`, so the wrapper below always supplies enough. -/
def globMatchFuel : Nat → List Char → List Char → Bool
  | 0, _, _ => false
  | _ + 1, [], s => s.isEmpty
  | fuel + 1, '*' :: ps, [] => globMatchFuel fuel ps []
  | fuel + 1, '*' :: ps, c :: cs =>
      globMatchFuel fuel ps (c :: cs) || globMatchFuel fuel ('*' :: ps) cs
  | _ + 1, '?' :: _, [] => false
  | fuel + 1, '?' :: ps, _ :: cs => globMatchFuel fuel ps cs
  | _ + 1, _ :: _, [] => false
  | fuel + 1, p :: ps, c :: cs => p == c && globMatchFuel fuel ps cs

/-- `fnmatch.fnmatch(name, pattern)` (pattern first here). -/
def globMatch (pattern name : List Char) : Bool :=
  globMatchFuel (pattern.length + name.length + 1) pattern name

/-- A `SitePattern` record as stored in `site_patterns.json` under
`patterns[domain]["url_patterns"][url_pattern]`. -/
structure SitePattern where
  description : String
  selectors : Blob
  pagination : Blob
  anti_block : Blob
  success_count : Nat
  fail_count : Nat
  last_success : Option String
  last_fail : Option String
  created_at : Option String
  notes : String
  status : String
deriving DecidableEq, Repr

/-- The `pattern_data` dict passed to `save_pattern`: `pattern_data.get(k,
fallback)` is modelled by `Option` fields, `none` meaning the key is absent. -/
structure PatternData where
  description : Option String
  selectors : Option Blob
  pagination : Option Blob
  anti_block : Option Blob
  notes : Option String
deriving DecidableEq, Repr

/-- `ExperienceManager.patterns`: the `_meta` aggregate counters plus, for
each domain key, its `"url_patterns"` map (shape → record).  Python dicts
are modelled as association lists with unique keys kept in insertion order
(which is also dict iteration order). -/
structure Store where
  domains : List (String × List (String × SitePattern))
  total_patterns : Nat
  total_successes : Nat
deriving DecidableEq, Repr

/-- Python dict assignment `d[k] = v`: replace in place if the key exists,
else append. -/
def assocSet {α : Type} (l : List (String × α)) (k : String) (v : α) : List (String × α) :=
  match l with
  | [] => [(k, v)]
  | (k2, v2) :: rest => if k2 == k then (k, v) :: rest else (k2, v2) :: assocSet rest k v

/-- `ExperienceManager.find_pattern(url)`: normalize the URL to its shape;
exact lookup in the domain's shape map first, then first `fnmatch` wildcard
match in iteration order. -/
def find_pattern (st : Store) (u : Url) : Option SitePattern :=
  let domain := u.netloc
  let url_pattern := urlToPattern u
  match st.domains.lookup domain with
  | none => none
  | some domain_patterns =>
    match domain_patterns.lookup url_pattern with
    | some config => some config
    | none =>
      match domain_patterns.find? (fun pc => globMatch pc.1.data url_pattern.data) with
      | some pc => some pc.2
      | none => none

/-- `ExperienceManager.save_pattern(url, pattern_data)`: merge `pattern_data`
over the existing record for `(domain, shape)` (or defaults when absent),
bump `success_count`, stamp `last_success := now`, force `status :=
"active"`, store the merged record, and recompute both `_meta` totals by
summing over the whole store. -/
def save_pattern (st : Store) (u : Url) (pd : PatternData) (now : String) : Store :=
  let domain := u.netloc
  let url_pattern := urlToPattern u
  let domain_patterns := (st.domains.lookup domain).getD []
  let merged : SitePattern :=
    match domain_patterns.lookup url_pattern with
    | some e =>
      { description := pd.description.getD e.description
        selectors := pd.selectors.getD e.selectors
        pagination := pd.pagination.getD e.pagination
        anti_block := pd.anti_block.getD e.anti_block
        success_count := e.success_count + 1
        fail_count := e.fail_count
        last_success := some now
        last_fail := e.last_fail
        created_at := e.created_at
        notes := pd.notes.getD e.notes
        status := "active" }
    | none =>
      { description := pd.description.getD ""
        selectors := pd.selectors.getD []
        pagination := pd.pagination.getD []
        anti_block := pd.anti_block.getD []
        success_count := 1
        fail_count := 0
        last_success := some now
        last_fail := none
        created_at := some now
        notes := pd.notes.getD ""
        status := "active" }
  let new_domains := assocSet st.domains domain (assocSet domain_patterns url_pattern merged)
  { domains := new_domains
    total_patterns := (new_domains.map (fun d => d.2.length)).sum
    total_successes := (new_domains.map (fun d => (d.2.map (fun p => p.2.success_count)).sum)).sum }

/-- Look a record up by origin and shape. -/
def lookupShape (st : Store) (domain shape : String) : Option SitePattern :=
  (st.domains.lookup domain).bind (fun dp => dp.lookup shape)

/-- A concrete stored record, used in the C2 scenario. -/
def c2Rec : SitePattern :=
  { description := "articles"
    selectors := [("title", "h1")]
    pagination := []
    anti_block := []
    success_count := 1
    fail_count := 0
    last_success := none
    last_fail := none
    created_at := none
    notes := ""
    status := "active" }

/-- A store holding exactly one record, under shape `/articles/*` for origin
`example.com`. -/
def c2Store : Store :=
  { domains := [("example.com", [("/articles/*", c2Rec)])]
    total_patterns := 1
    total_successes := 1 }

end Patterns

namespace Adaptive

/-- `BlockLevel` (`crawl4ai_wrapper.py`): ordered severity enumeration. -/
inductive BlockLevel where
  | NONE
  | LIGHT
  | MODERATE
  | SEVERE
deriving DecidableEq, Repr

/-- The numeric `.value` of a `BlockLevel` member. -/
def BlockLevel.val : BlockLevel → Nat
  | .NONE => 0
  | .LIGHT => 1
  | .MODERATE => 2
  | .SEVERE => 3

/-- `BlockLevel(n)` for `n ≤ 3`; every call site passes a value clamped into
`0..3` (`min (· ) 3`, or `value - 1` with `value > 0`), so the `≥ 4` branch
is never reached. -/
def BlockLevel.ofVal : Nat → BlockLevel
  | 0 => .NONE
  | 1 => .LIGHT
  | 2 => .MODERATE
  | _ => .SEVERE

/-- The mutable state of `AdaptiveRateLimiter` (the delay configuration is
irrelevant to the escalation logic and omitted). -/
structure Limiter where
  block_level : BlockLevel
  consecutive_successes : Nat
  consecutive_failures : Nat
  request_count : Nat
  blocked_at : Option Nat
deriving DecidableEq, Repr

/-- `AdaptiveRateLimiter.__init__`: starts at `BlockLevel.NONE` with zero
counters and no recorded block. -/
def initLimiter : Limiter :=
  { block_level := .NONE
    consecutive_successes := 0
    consecutive_failures := 0
    request_count := 0
    blocked_at := none }

/-- `AdaptiveRateLimiter.report_success()`. -/
def report_success (s : Limiter) : Limiter :=
  let s1 := { s with
    consecutive_successes := s.consecutive_successes + 1
    consecutive_failures := 0 }
  if 5 ≤ s1.consecutive_successes ∧ 0 < s1.block_level.val then
    { s1 with
        block_level := BlockLevel.ofVal (s1.block_level.val - 1)
        consecutive_successes := 0 }
  else s1

/-- `AdaptiveRateLimiter.report_failure(status_code)`. -/
def report_failure (s : Limiter) (status_code : Option Int) : Limiter :=
  let s1 := { s with
    consecutive_failures := s.consecutive_failures + 1
    consecutive_successes := 0 }
  let s2 :=
    match s1.blocked_at with
    | none => { s1 with blocked_at := some s1.request_count }
    | some _ => s1
  let escalation : Nat := if status_code = some 429 ∨ status_code = some 403 then 2 else 1
  { s2 with block_level := BlockLevel.ofVal (min (s2.block_level.val + escalation) BlockLevel.SEVERE.val) }

end Adaptive

namespace Bucket

/-- The state of `TokenBucketRateLimiter`: `rate` and `tokens` are Python
floats (modelled as rationals), `capacity` is a Python `int`.  The
`last_update` clock is replaced by passing the elapsed time into `acquire`
directly. -/
structure State where
  rate : ℚ
  capacity : Int
  tokens : ℚ
deriving DecidableEq, Repr

/-- Python `int(q)` on a number: truncation toward zero. -/
def intTrunc (q : ℚ) : Int := q.num.tdiv (q.den : Int)

/-- `TokenBucketRateLimiter.__init__(rate, capacity)`: `self.capacity =
capacity or int(rate)` — both `None` and `0` are falsy, so either falls back
to the truncation of `rate`; `self.tokens = float(self.capacity)`. -/
def init (rate : ℚ) (capacity : Option Int) : State :=
  let cap : Int :=
    match capacity with
    | some c => if c = 0 then intTrunc rate else c
    | none => intTrunc rate
  { rate := rate, capacity := cap, tokens := (cap : ℚ) }

/-- One call of `TokenBucketRateLimiter.acquire(n)` under the lock.
`elapsed = now - self.last_update` (non-negative for a monotonic clock) is
an explicit argument; the result is `(waited_seconds, new_state)`.  The
suspension (`asyncio.sleep(wait_time)`) has no effect on the bucket state
beyond `tokens = 0`. -/
def acquire (s : State) (elapsed : ℚ) (n : Int) : ℚ × State :=
  let tokens := min ((s.capacity : ℚ)) (s.tokens + elapsed * s.rate)
  if tokens < (n : ℚ) then
    (((n : ℚ) - tokens) / s.rate, { s with tokens := 0 })
  else
    (0, { s with tokens := tokens - (n : ℚ) })

end Bucket

namespace Scrape

/-- Semaphore events of one fetch attempt in `ConcurrentScraper._scrape_single`. -/
inductive Ev where
  | acqDomain
  | acqGlobal
  | crawl
  | relDomain
  | relGlobal
deriving DecidableEq, Repr

/-- How the body of the inner `try` block of `_scrape_single` exits:
an early `return` because Crawl4AI is missing, a successful crawl
(`result.success`, ends in `return`), or a failed crawl
(`raise Exception(result.error_message)`, caught by the outer handler). -/
inductive Outcome where
  | crawl4aiMissing
  | success
  | fetchError
deriving DecidableEq, Repr

/-- The event trace of one fetch attempt of `_scrape_single` from the point
where the rate limiter has been passed: the per-domain semaphore is acquired
(`self.domain_semaphores.acquire(url)`), then the global semaphore
(`self.global_semaphore.acquire()`); the `try` body runs to one of its
exits; the `finally` block then runs on every exit path — `return` and
raised exception alike — releasing the domain semaphore first and the
global semaphore second. -/
def attemptEvents (o : Outcome) : List Ev :=
  let body : List Ev :=
    match o with
    | .crawl4aiMissing => []
    | .success => [.crawl]
    | .fetchError => [.crawl]
  ([Ev.acqDomain, Ev.acqGlobal] ++ body) ++ [Ev.relDomain, Ev.relGlobal]

end Scrape


/-!
## Helper lemmas: `ProgressManager`
-/

namespace Progress

theorem mc_completed_list (s : State) (u : String) (d : Option Dict) (n : String) :
    (mark_completed s u d n).completed_url_list =
      if u ∈ s.completed_set then s.completed_url_list else s.completed_url_list ++ [u] := by
  unfold mark_completed
  cases d with
  | none => by_cases hc : u ∈ s.completed_set <;> simp [hc]
  | some l => by_cases hd : l = [] <;> by_cases hc : u ∈ s.completed_set <;> simp [hc, hd]

theorem mc_completed_set (s : State) (u : String) (d : Option Dict) (n : String) :
    (mark_completed s u d n).completed_set =
      if u ∈ s.completed_set then s.completed_set else u :: s.completed_set := by
  unfold mark_completed
  cases d with
  | none => by_cases hc : u ∈ s.completed_set <;> simp [hc]
  | some l => by_cases hd : l = [] <;> by_cases hc : u ∈ s.completed_set <;> simp [hc, hd]

theorem mc_completed_urls (s : State) (u : String) (d : Option Dict) (n : String) :
    (mark_completed s u d n).completed_urls =
      if u ∈ s.completed_set then s.completed_urls else s.completed_urls + 1 := by
  unfold mark_completed
  cases d with
  | none => by_cases hc : u ∈ s.completed_set <;> simp [hc]
  | some l => by_cases hd : l = [] <;> by_cases hc : u ∈ s.completed_set <;> simp [hc, hd]

theorem mc_failed_list (s : State) (u : String) (d : Option Dict) (n : String) :
    (mark_completed s u d n).failed_url_list = s.failed_url_list := by
  unfold mark_completed
  cases d with
  | none => by_cases hc : u ∈ s.completed_set <;> simp [hc]
  | some l => by_cases hd : l = [] <;> by_cases hc : u ∈ s.completed_set <;> simp [hc, hd]

theorem mc_scraped_some (s : State) (u : String) (d : Dict) (n : String) (hd : d ≠ []) :
    (mark_completed s u (some d) n).scraped_data = s.scraped_data ++ [⟨d, n, u⟩] := by
  unfold mark_completed
  by_cases hc : u ∈ s.completed_set <;> simp [hc, hd]

theorem mf_failed_list (s : State) (u : String) (e : String) :
    (mark_failed s u e).failed_url_list =
      if u ∈ s.failed_url_list then s.failed_url_list else s.failed_url_list ++ [u] := by
  unfold mark_failed
  by_cases hf : u ∈ s.failed_url_list <;> simp [hf]

theorem mf_completed_list (s : State) (u : String) (e : String) :
    (mark_failed s u e).completed_url_list = s.completed_url_list := by
  unfold mark_failed
  by_cases hf : u ∈ s.failed_url_list <;> simp [hf]

theorem mf_completed_set (s : State) (u : String) (e : String) :
    (mark_failed s u e).completed_set = s.completed_set := by
  unfold mark_failed
  by_cases hf : u ∈ s.failed_url_list <;> simp [hf]

theorem inv_mark_completed {s : State} (u : String) (d : Option Dict) (n : String)
    (h : Inv s) : Inv (mark_completed s u d n) := by
  intro x
  rw [mc_completed_set, mc_completed_list]
  by_cases hc : u ∈ s.completed_set
  · simp only [if_pos hc]; exact h x
  · simp only [if_neg hc, List.mem_cons, List.mem_append, List.mem_singleton,
      List.not_mem_nil, or_false]
    rw [h x]
    exact or_comm

theorem inv_mark_failed {s : State} (u : String) (e : String)
    (h : Inv s) : Inv (mark_failed s u e) := by
  intro x
  rw [mf_completed_set, mf_completed_list]
  exact h x

theorem mem_mc_completed {s : State} (h : Inv s) (u : String) (d : Option Dict) (n : String)
    (x : String) :
    x ∈ (mark_completed s u d n).completed_url_list ↔ (x ∈ s.completed_url_list ∨ x = u) := by
  rw [mc_completed_list]
  by_cases hc : u ∈ s.completed_set
  · simp only [if_pos hc]
    refine ⟨Or.inl, fun hx => ?_⟩
    rcases hx with hx | rfl
    · exact hx
    · exact (h x).1 hc
  · simp [if_neg hc]

theorem mem_mf_failed (s : State) (u : String) (e : String) (x : String) :
    x ∈ (mark_failed s u e).failed_url_list ↔ (x ∈ s.failed_url_list ∨ x = u) := by
  rw [mf_failed_list]
  by_cases hf : u ∈ s.failed_url_list
  · simp only [if_pos hf]
    refine ⟨Or.inl, fun hx => ?_⟩
    rcases hx with hx | rfl
    · exact hx
    · exact hf
  · simp [if_neg hf]

theorem completeUrls_cons_complete (u : String) (d : Option Dict) (n : String)
    (es : List Event) :
    completeUrls (Event.complete u d n :: es) = u :: completeUrls es := rfl

theorem completeUrls_cons_fail (u : String) (e : String) (es : List Event) :
    completeUrls (Event.fail u e :: es) = completeUrls es := rfl

theorem failUrls_cons_complete (u : String) (d : Option Dict) (n : String)
    (es : List Event) :
    failUrls (Event.complete u d n :: es) = failUrls es := rfl

theorem failUrls_cons_fail (u : String) (e : String) (es : List Event) :
    failUrls (Event.fail u e :: es) = u :: failUrls es := rfl

/-- The cumulative effect of an arbitrary interleaving of `mark_completed` and
`mark_failed` calls: the set/list sync invariant is preserved, and membership
in either URL list is exactly membership at the start or among the
corresponding events. -/
theorem run_effects (evs : List Event) : ∀ s : State, Inv s →
    Inv (run s evs)
    ∧ (∀ x, x ∈ (run s evs).completed_url_list ↔ (x ∈ s.completed_url_list ∨ x ∈ completeUrls evs))
    ∧ (∀ x, x ∈ (run s evs).failed_url_list ↔ (x ∈ s.failed_url_list ∨ x ∈ failUrls evs)) := by
  induction evs with
  | nil =>
    intro s h
    refine ⟨h, ?_, ?_⟩ <;> intro x <;> simp [run, completeUrls, failUrls]
  | cons e es ih =>
    intro s h
    have hstep : run s (e :: es) = run (step s e) es := rfl
    cases e with
    | complete u d n =>
      obtain ⟨ih1, ih2, ih3⟩ := ih _ (inv_mark_completed u d n h)
      rw [hstep]
      simp only [step]
      refine ⟨ih1, ?_, ?_⟩
      · intro x
        rw [ih2 x, completeUrls_cons_complete]
        show x ∈ (mark_completed s u d n).completed_url_list ∨ _ ↔ _
        rw [mem_mc_completed h]
        simp only [List.mem_cons]
        tauto
      · intro x
        rw [ih3 x, failUrls_cons_complete]
        show x ∈ (mark_completed s u d n).failed_url_list ∨ _ ↔ _
        rw [mc_failed_list]
    | fail u er =>
      obtain ⟨ih1, ih2, ih3⟩ := ih _ (inv_mark_failed u er h)
      rw [hstep]
      simp only [step]
      refine ⟨ih1, ?_, ?_⟩
      · intro x
        rw [ih2 x, completeUrls_cons_fail]
        show x ∈ (mark_failed s u er).completed_url_list ∨ _ ↔ _
        rw [mf_completed_list]
      · intro x
        rw [ih3 x, failUrls_cons_fail]
        show x ∈ (mark_failed s u er).failed_url_list ∨ _ ↔ _
        rw [mem_mf_failed]
        simp only [List.mem_cons]
        tauto

theorem inv_initState : Inv initState := fun _ => Iff.rfl

theorem inv_resumeExample : Inv resumeExample := fun _ => Iff.rfl

end Progress

/-!
## Claims C1, C3, C5: `ProgressManager`
-/

/-- C1 (counterexample): calling `mark_completed` twice for the same URL with
the same non-empty data payload leaves `scraped_data` with TWO entries for
that URL, not one — the data append sits outside the dedup guard.  (The
completed count and list do stay at one entry.) -/
theorem c1_counterexample :
    (Progress.entriesFor Progress.c1Twice.scraped_data "https://e.com/a").length = 2
    ∧ ¬ (Progress.entriesFor Progress.c1Twice.scraped_data "https://e.com/a").length = 1
    ∧ Progress.c1Twice.completed_urls = 1
    ∧ Progress.c1Twice.completed_url_list = ["https://e.com/a"] := by decide

/-- C1 (amended): for a URL not yet completed, a first `mark_completed(u, d)`
with truthy `d` leaves `completed_url_list` with exactly one entry for `u`; a
second call for the same URL changes neither `completed_url_list` nor the
`completed_urls` count, but appends `d` to `scraped_data` again: the entries
for `u` grow by one on every call carrying truthy data. -/
theorem c1_amended (s : Progress.State) (u : String) (d : Progress.Dict) (t1 t2 : String)
    (hinv : Progress.Inv s) (hnew : u ∉ s.completed_set) (hd : d ≠ []) :
    (Progress.mark_completed s u (some d) t1).completed_url_list.count u = 1
    ∧ (Progress.mark_completed (Progress.mark_completed s u (some d) t1) u (some d) t2).completed_url_list
        = (Progress.mark_completed s u (some d) t1).completed_url_list
    ∧ (Progress.mark_completed (Progress.mark_completed s u (some d) t1) u (some d) t2).completed_urls
        = (Progress.mark_completed s u (some d) t1).completed_urls
    ∧ (Progress.entriesFor
        (Progress.mark_completed (Progress.mark_completed s u (some d) t1) u (some d) t2).scraped_data
        u).length
        = (Progress.entriesFor (Progress.mark_completed s u (some d) t1).scraped_data u).length + 1 := by
  have hmem : u ∈ (Progress.mark_completed s u (some d) t1).completed_set := by
    rw [Progress.mc_completed_set]
    simp [hnew]
  have hnotin : u ∉ s.completed_url_list := fun hm => hnew ((hinv u).2 hm)
  refine ⟨?_, ?_, ?_, ?_⟩
  · rw [Progress.mc_completed_list]
    simp only [if_neg hnew]
    rw [List.count_append]
    rw [List.count_eq_zero.mpr hnotin]
    simp
  · rw [Progress.mc_completed_list, if_pos hmem]
  · rw [Progress.mc_completed_urls, if_pos hmem]
  · rw [Progress.mc_scraped_some _ _ _ _ hd]
    unfold Progress.entriesFor
    rw [List.filter_append]
    simp

/-- C1 (witness): the amended statement instantiated at a fresh state. -/
theorem c1_witness :
    Progress.Inv Progress.initState
    ∧ "u" ∉ Progress.initState.completed_set
    ∧ Progress.c1Data ≠ []
    ∧ (Progress.mark_completed Progress.initState "u" (some Progress.c1Data) "t1").completed_url_list.count "u" = 1 :=
  ⟨Progress.inv_initState, by decide, by decide,
    (c1_amended Progress.initState "u" Progress.c1Data "t1" "t2"
      Progress.inv_initState (by decide) (by decide)).1⟩

/-- C3 (counterexample): `mark_completed(u)` followed by `mark_failed(u)`
puts `u` in both `completed_url_list` and `failed_url_list` — neither
operation consults the other list, so the lists are not disjoint for every
interleaving. -/
theorem c3_counterexample :
    "https://e.com/a" ∈ Progress.c3Run.completed_url_list
    ∧ "https://e.com/a" ∈ Progress.c3Run.failed_url_list := by decide

/-- C3 (amended): for every interleaving of `mark_completed` and
`mark_failed` calls starting from a fresh state, `completed_url_list` and
`failed_url_list` stay disjoint PROVIDED no URL is passed to both
operations; a URL passed to both ends up in both lists. -/
theorem c3_amended (evs : List Progress.Event)
    (h : ∀ u, u ∈ Progress.completeUrls evs → u ∉ Progress.failUrls evs) :
    ∀ u, ¬ (u ∈ (Progress.run Progress.initState evs).completed_url_list
            ∧ u ∈ (Progress.run Progress.initState evs).failed_url_list) := by
  obtain ⟨-, hc, hf⟩ := Progress.run_effects evs Progress.initState Progress.inv_initState
  rintro u ⟨h1, h2⟩
  rw [hc u] at h1
  rw [hf u] at h2
  simp only [Progress.initState, List.not_mem_nil, false_or] at h1 h2
  exact h u h1 h2

/-- C3 (witness): the amended statement at an interleaving completing `a`
and failing `b`. -/
theorem c3_witness :
    (∀ u, u ∈ Progress.completeUrls Progress.c3Evs → u ∉ Progress.failUrls Progress.c3Evs)
    ∧ ¬ ("a" ∈ (Progress.run Progress.initState Progress.c3Evs).completed_url_list
         ∧ "a" ∈ (Progress.run Progress.initState Progress.c3Evs).failed_url_list) :=
  ⟨by decide, c3_amended Progress.c3Evs (by decide) "a"⟩

/-- C5: `get_remaining_urls` returns exactly the worklist minus the union of
the completed and failed URL sets — membership requires absence from BOTH
lists — in worklist order (the result is a sublist of the worklist); on the
concrete resume scenario (worklist `[A,B,C,D]`, completed `[A,B]`, nothing
failed) it returns exactly `[C, D]`. -/
theorem c5_remaining (s : Progress.State) (hinv : Progress.Inv s) :
    (∀ u, u ∈ Progress.get_remaining_urls s
        ↔ (u ∈ s.urls_to_scrape ∧ u ∉ s.completed_url_list ∧ u ∉ s.failed_url_list))
    ∧ List.Sublist (Progress.get_remaining_urls s) s.urls_to_scrape
    ∧ Progress.get_remaining_urls Progress.resumeExample = ["C", "D"] := by
  refine ⟨?_, List.filter_sublist _, by decide⟩
  intro u
  unfold Progress.get_remaining_urls
  rw [List.mem_filter]
  simp only [decide_eq_true_eq]
  rw [hinv u]

/-- C5 (witness): the resume scenario itself. -/
theorem c5_witness :
    Progress.Inv Progress.resumeExample
    ∧ Progress.get_remaining_urls Progress.resumeExample = ["C", "D"] :=
  ⟨Progress.inv_resumeExample,
    (c5_remaining Progress.resumeExample Progress.inv_resumeExample).2.2⟩

/-!
## Helper lemmas: `ExperienceManager`
-/

namespace Patterns

theorem lookup_assocSet {α : Type} (l : List (String × α)) (k : String) (v : α) :
    (assocSet l k v).lookup k = some v := by
  induction l with
  | nil => simp [assocSet, List.lookup]
  | cons hd tl ih =>
    obtain ⟨k2, v2⟩ := hd
    by_cases hk : k2 = k
    · subst hk
      simp [assocSet, List.lookup]
    · have hb : (k2 == k) = false := by simp [hk]
      have hb2 : (k == k2) = false := by simp [Ne.symm hk]
      simp [assocSet, List.lookup, hb, hb2, ih]

end Patterns

/-!
## Claims C2, C10: `ExperienceManager`
-/

/-- C2 (counterexample): with `/articles/*` stored for `example.com`,
`find_pattern` on the URL shape `/articles/*/comments` (from path
`/articles/42/comments`) DOES return the stored record: the exact lookup
misses, but the `fnmatch` fallback matches because `*` also matches across
`/` — contradicting the claim that this URL is not matched. -/
theorem c2_counterexample :
    Patterns.c2Store.domains.lookup "example.com" = some [("/articles/*", Patterns.c2Rec)]
    ∧ Patterns.find_pattern Patterns.c2Store ⟨"example.com", "/articles/42/comments"⟩
        = some Patterns.c2Rec := by decide

/-- C2 (amended): if the store holds exactly the record `rec` under shape
`/articles/*` for an origin, then `find_pattern` on that origin returns
`rec` for paths `/articles/42` and `/articles/7` (exact match after shape
normalization) AND ALSO for `/articles/42/comments` (wildcard fallback:
fnmatch `*` crosses path-segment boundaries). -/
theorem c2_amended (st : Patterns.Store) (origin : String) (rec : Patterns.SitePattern)
    (h : st.domains.lookup origin = some [("/articles/*", rec)]) :
    Patterns.find_pattern st ⟨origin, "/articles/42"⟩ = some rec
    ∧ Patterns.find_pattern st ⟨origin, "/articles/7"⟩ = some rec
    ∧ Patterns.find_pattern st ⟨origin, "/articles/42/comments"⟩ = some rec := by
  have h42 : Patterns.urlToPattern ⟨origin, "/articles/42"⟩ = "/articles/*" := rfl
  have h7 : Patterns.urlToPattern ⟨origin, "/articles/7"⟩ = "/articles/*" := rfl
  have hcm : Patterns.urlToPattern ⟨origin, "/articles/42/comments"⟩ = "/articles/*/comments" := rfl
  have hglob : Patterns.globMatch "/articles/*".data "/articles/*/comments".data = true := by
    decide
  refine ⟨?_, ?_, ?_⟩
  · unfold Patterns.find_pattern
    rw [h42]
    simp only [h, List.lookup]
    simp
  · unfold Patterns.find_pattern
    rw [h7]
    simp only [h, List.lookup]
    simp
  · unfold Patterns.find_pattern
    rw [hcm]
    simp only [h, List.lookup]
    simp [List.find?, hglob]

/-- C2 (witness): the amended statement at the concrete singleton store. -/
theorem c2_witness :
    Patterns.c2Store.domains.lookup "example.com" = some [("/articles/*", Patterns.c2Rec)]
    ∧ Patterns.find_pattern Patterns.c2Store ⟨"example.com", "/articles/42"⟩
        = some Patterns.c2Rec :=
  ⟨by decide, (c2_amended Patterns.c2Store "example.com" Patterns.c2Rec (by decide)).1⟩

/-- C10: after any `save_pattern(url, data)` call, the record stored for
`(domain, shape)` has `status = "active"`, whatever the store held before —
the merge writes the literal `"active"` unconditionally, so an externally
retired pattern is reactivated by the next recorded success. -/
theorem c10_save_pattern_status (st : Patterns.Store) (u : Patterns.Url)
    (pd : Patterns.PatternData) (now : String) :
    (Patterns.lookupShape (Patterns.save_pattern st u pd now) u.netloc
        (Patterns.urlToPattern u)).map (fun r => r.status) = some "active" := by
  unfold Patterns.save_pattern Patterns.lookupShape
  rw [Patterns.lookup_assocSet]
  simp only [Option.bind]
  rw [Patterns.lookup_assocSet]
  cases hlook : ((st.domains.lookup u.netloc).getD []).lookup (Patterns.urlToPattern u) <;>
    simp [hlook]

/-!
## Helper lemmas: `AdaptiveRateLimiter`
-/

namespace Adaptive

theorem val_le_three (b : BlockLevel) : b.val ≤ 3 := by
  cases b <;> simp [BlockLevel.val]

theorem ofVal_val (n : Nat) (h : n ≤ 3) : (BlockLevel.ofVal n).val = n := by
  interval_cases n <;> rfl

theorem severe_val : BlockLevel.SEVERE.val = 3 := rfl

end Adaptive

/-!
## Claims C4, C9: `AdaptiveRateLimiter`
-/

/-- C4: starting from `BlockLevel.NONE`, two consecutive
`report_failure(429)` calls reach `SEVERE` (and one call only reaches
`MODERATE`, so two are needed); after any further sequence of
`report_failure` calls with any status codes the level never exceeds
`SEVERE`; in general one call escalates by 2 steps for status 429 or 403
and by 1 step otherwise, always clamped at `SEVERE` (value 3). -/
theorem c4_report_failure :
    (Adaptive.report_failure (Adaptive.report_failure Adaptive.initLimiter (some 429))
        (some 429)).block_level = Adaptive.BlockLevel.SEVERE
    ∧ (Adaptive.report_failure Adaptive.initLimiter (some 429)).block_level
        = Adaptive.BlockLevel.MODERATE
    ∧ (∀ (s : Adaptive.Limiter) (codes : List (Option Int)),
        (codes.foldl Adaptive.report_failure s).block_level.val
          ≤ Adaptive.BlockLevel.SEVERE.val)
    ∧ (∀ (s : Adaptive.Limiter) (code : Option Int),
        (Adaptive.report_failure s code).block_level.val
          = min (s.block_level.val + (if code = some 429 ∨ code = some 403 then 2 else 1)) 3) := by
  refine ⟨by decide, by decide, ?_, ?_⟩
  · intro s codes
    exact Adaptive.val_le_three _
  · intro s code
    unfold Adaptive.report_failure
    cases hb : s.blocked_at <;>
      simp only [hb, Adaptive.severe_val] <;>
      rw [Adaptive.ofVal_val _ (min_le_right _ _)]

/-- C9: `report_success` resets `consecutive_failures` to 0; its effect on
the block level and the success counter is: when the incremented counter
reaches the threshold 5 while the level is above `NONE`, the level drops by
exactly one step and the counter resets to 0, otherwise the level is
unchanged and the counter is simply incremented; in every case the level
drops by at most one step and never rises. -/
theorem c9_report_success (s : Adaptive.Limiter) :
    (Adaptive.report_success s).consecutive_failures = 0
    ∧ (Adaptive.report_success s).block_level.val
        = (if 5 ≤ s.consecutive_successes + 1 ∧ 0 < s.block_level.val
           then s.block_level.val - 1 else s.block_level.val)
    ∧ (Adaptive.report_success s).consecutive_successes
        = (if 5 ≤ s.consecutive_successes + 1 ∧ 0 < s.block_level.val
           then 0 else s.consecutive_successes + 1)
    ∧ s.block_level.val ≤ (Adaptive.report_success s).block_level.val + 1
    ∧ (Adaptive.report_success s).block_level.val ≤ s.block_level.val := by
  have hle := Adaptive.val_le_three s.block_level
  unfold Adaptive.report_success
  by_cases hcond : 5 ≤ s.consecutive_successes + 1 ∧ 0 < s.block_level.val
  · simp only [if_pos hcond]
    rw [Adaptive.ofVal_val _ (by omega)]
    refine ⟨?_, ?_, ?_, ?_, ?_⟩ <;> first | trivial | omega
  · simp only [if_neg hcond]
    refine ⟨?_, ?_, ?_, ?_, ?_⟩ <;> first | trivial | omega

/-!
## Claims C6, C8: `TokenBucketRateLimiter`
-/

/-- C6: one `acquire(n)` call first refills the bucket by
`elapsed × rate` capped at `capacity`; if the refilled amount is below `n`
it returns the wait `(n - tokens) / rate` and zeroes the tokens, otherwise
it subtracts `n` and returns zero wait; in both cases the resulting token
count stays within `[0, capacity]` (and `rate`/`capacity` are untouched). -/
theorem c6_acquire (s : Bucket.State) (elapsed : ℚ) (n : Int)
    (hr : 0 < s.rate) (ht0 : 0 ≤ s.tokens) (htc : s.tokens ≤ (s.capacity : ℚ))
    (he : 0 ≤ elapsed) (hn : 0 ≤ n) :
    (0 ≤ (Bucket.acquire s elapsed n).2.tokens
      ∧ (Bucket.acquire s elapsed n).2.tokens ≤ (s.capacity : ℚ))
    ∧ (Bucket.acquire s elapsed n).1
        = (if min ((s.capacity : ℚ)) (s.tokens + elapsed * s.rate) < (n : ℚ)
           then ((n : ℚ) - min ((s.capacity : ℚ)) (s.tokens + elapsed * s.rate)) / s.rate
           else 0)
    ∧ (Bucket.acquire s elapsed n).2.tokens
        = (if min ((s.capacity : ℚ)) (s.tokens + elapsed * s.rate) < (n : ℚ)
           then 0
           else min ((s.capacity : ℚ)) (s.tokens + elapsed * s.rate) - (n : ℚ))
    ∧ (Bucket.acquire s elapsed n).2.rate = s.rate
    ∧ (Bucket.acquire s elapsed n).2.capacity = s.capacity := by
  have hcap : (0 : ℚ) ≤ (s.capacity : ℚ) := ht0.trans htc
  have hnq : (0 : ℚ) ≤ (n : ℚ) := by exact_mod_cast hn
  unfold Bucket.acquire
  by_cases hlt : min ((s.capacity : ℚ)) (s.tokens + elapsed * s.rate) < (n : ℚ)
  · simp only [if_pos hlt]
    refine ⟨⟨le_refl 0, hcap⟩, ?_, ?_, ?_, ?_⟩ <;> trivial
  · simp only [if_neg hlt]
    push_neg at hlt
    have hub := min_le_left ((s.capacity : ℚ)) (s.tokens + elapsed * s.rate)
    refine ⟨⟨by linarith, by linarith⟩, ?_, ?_, ?_, ?_⟩ <;> trivial

/-- C6 (witness): an acquire that must wait — rate 1, capacity 2, one token
left, no elapsed time, two tokens requested. -/
theorem c6_witness :
    (0 : ℚ) < 1
    ∧ (Bucket.acquire ⟨1, 2, 1⟩ 0 2).1 = 1
    ∧ (Bucket.acquire ⟨1, 2, 1⟩ 0 2).2.tokens = 0 := by
  have h := c6_acquire ⟨1, 2, 1⟩ 0 2 (by norm_num) (by norm_num) (by norm_num)
    (by norm_num) (by norm_num)
  have hmin : min (((2 : Int) : ℚ)) ((1 : ℚ) + 0 * 1) = 1 := by norm_num
  have hcond : min (((2 : Int) : ℚ)) ((1 : ℚ) + 0 * 1) < ((2 : Int) : ℚ) := by
    rw [hmin]; norm_num
  refine ⟨by norm_num, ?_, ?_⟩
  · rw [h.2.1, if_pos hcond, hmin]
    norm_num
  · rw [h.2.2.1, if_pos hcond]

/-- C8: the claim that omitting `capacity` yields `capacity = rate` fails
for non-integer rates: `__init__` sets `self.capacity = capacity or
int(rate)`, truncating the float.  At the strictly positive rate 1/2 the
resulting capacity is 0, not 1/2 (the initial token count does equal the
truncated capacity). -/
theorem c8_init_capacity :
    (0 : ℚ) < mkRat 1 2
    ∧ (Bucket.init (mkRat 1 2) none).capacity = 0
    ∧ ((Bucket.init (mkRat 1 2) none).capacity : ℚ) ≠ mkRat 1 2
    ∧ (Bucket.init (mkRat 1 2) none).tokens = ((Bucket.init (mkRat 1 2) none).capacity : ℚ) := by
  refine ⟨by decide, by decide, by decide, by decide⟩

/-!
## Claim C7: `_scrape_single` semaphore discipline
-/

/-- C7 (counterexample): on the successful-fetch exit path the global
semaphore is NOT released before the per-domain semaphore — the `finally`
block releases them in acquisition order (domain first, then global), not
in reverse order as claimed. -/
theorem c7_counterexample :
    ¬ ((Scrape.attemptEvents Scrape.Outcome.success).indexOf Scrape.Ev.relGlobal
        < (Scrape.attemptEvents Scrape.Outcome.success).indexOf Scrape.Ev.relDomain) := by
  decide

/-- C7 (amended): during one fetch attempt the per-domain semaphore is
acquired before the global one, and on every exit path of the attempt after
both acquisitions (Crawl4AI missing, success, fetch error raising an
exception) each of the four semaphore operations occurs exactly once, with
both releases after the acquisitions and the releases in the SAME order as
the acquisitions: domain released first, then global. -/
theorem c7_amended (o : Scrape.Outcome) :
    ((Scrape.attemptEvents o).count Scrape.Ev.acqDomain = 1
      ∧ (Scrape.attemptEvents o).count Scrape.Ev.acqGlobal = 1
      ∧ (Scrape.attemptEvents o).count Scrape.Ev.relDomain = 1
      ∧ (Scrape.attemptEvents o).count Scrape.Ev.relGlobal = 1)
    ∧ (Scrape.attemptEvents o).indexOf Scrape.Ev.acqDomain
        < (Scrape.attemptEvents o).indexOf Scrape.Ev.acqGlobal
    ∧ (Scrape.attemptEvents o).indexOf Scrape.Ev.acqGlobal
        < (Scrape.attemptEvents o).indexOf Scrape.Ev.relDomain
    ∧ (Scrape.attemptEvents o).indexOf Scrape.Ev.relDomain
        < (Scrape.attemptEvents o).indexOf Scrape.Ev.relGlobal := by
  cases o <;> decide
